import Mathlib

/-!
Shallow embedding of `karpiu/planning/optim/budget_optimizer.py`.

Spend values, scalers and budgets are modelled as rationals; numpy arrays
become `List ℚ` and 2-d arrays become `List (List ℚ)` (row = time step,
column = channel).  The data-frame window `df.loc[budget_mask, optim_channels]`
is passed to each constructor as the matrix `dfWindow`; the number of
channels `len(optim_channels)` is passed as `nOptimChannels`, and the model
shell's `base_comp_input` series is passed as a list.  The scipy SLSQP solver
is external to the repository: each `optimize` method takes the solver's
result vector `sol.x` as an argument and performs the repository's own
rescale / round / reconstruct / state-update steps on it.
-/

/-- Round half to even at integer precision, the rounding rule used by
`numpy.round` (idealised over exact rationals). -/
def roundHalfEven (q : ℚ) : ℤ :=
  if q - ⌊q⌋ < 1/2 then ⌊q⌋
  else if 1/2 < q - ⌊q⌋ then ⌊q⌋ + 1
  else if 2 ∣ ⌊q⌋ then ⌊q⌋ else ⌊q⌋ + 1

/-- Model of `np.round(x, 5)`. -/
def round5 (q : ℚ) : ℚ := (roundHalfEven (q * 100000) : ℚ) / 100000

/-- Model of `np.sum` over a whole matrix. -/
def matSum (m : List (List ℚ)) : ℚ := (m.map List.sum).sum

/-- Model of `np.sum(m, -1)`: one sum per row (time step). -/
def rowSums (m : List (List ℚ)) : List ℚ := m.map List.sum

/-- Model of `np.sum(m, 0)` for a matrix with `n` columns: one sum per
column (channel). -/
def colSums (n : ℕ) (m : List (List ℚ)) : List ℚ :=
  (List.range n).map (fun j => (m.map (fun r => r.getD j 0)).sum)

/-- Model of `x.reshape(-1, c)`: cut a flat vector into `r` rows of `c`
entries each. -/
def reshapeRows : ℕ → ℕ → List ℚ → List (List ℚ)
  | 0, _, _ => []
  | r + 1, c, x => x.take c :: reshapeRows r c (x.drop c)

/-- Model of `scipy.optimize.LinearConstraint(A, lb, ub)`. -/
structure LinearConstraint where
  A : List ℚ
  lb : List ℚ
  ub : List ℚ
deriving DecidableEq

/-- Model of `scipy.optimize.Bounds(lb, ub)`; an upper bound may be
`np.inf`, modelled as the top element of `WithTop ℚ`. -/
structure Bounds where
  lb : List ℚ
  ub : List (WithTop ℚ)
deriving DecidableEq

/-- Message of the exception raised by the abstract `objective_func`. -/
def abstractObjectiveMsg : String :=
  "Abstract objective function. Child class needs to override this method to have concrete result."

/-- Message of the weight-length exception in `ChannelBudgetOptimizer.__init__`. -/
def channelWeightLengthMsg : String :=
  "Input weight has different length from budget period."

/-- Message of the weight-length exception in `TimeBudgetOptimizer.__init__`. -/
def timeWeightLengthMsg : String :=
  "Input weight has different length from number of optimizing channels."

/-- State of the full-grid allocator `BudgetOptimizer` (the fields that the
optimisation logic reads or writes; logger and data-frame plumbing are
external). -/
structure BudgetOptimizer where
  response_scaler : ℚ
  spend_scaler : ℚ
  total_budget : ℚ
  n_optim_channels : ℕ
  n_budget_steps : ℕ
  init_spend_matrix : List (List ℚ)
  curr_spend_matrix : List (List ℚ)
  constraints : List LinearConstraint
  budget_bounds : Bounds
deriving DecidableEq

/-- Method `BudgetOptimizer.set_constraints`. -/
def BudgetOptimizer.set_constraints (s : BudgetOptimizer)
    (cs : List LinearConstraint) : BudgetOptimizer :=
  { s with constraints := cs }

/-- Method `BudgetOptimizer.add_constraints`. -/
def BudgetOptimizer.add_constraints (s : BudgetOptimizer)
    (cs : List LinearConstraint) : BudgetOptimizer :=
  { s with constraints := s.constraints ++ cs }

/-- Method `BudgetOptimizer.generate_total_budget_constraint`:
`A = np.ones(n_budget_steps * n_optim_channels)`, `lb = np.zeros(1)`,
`ub = np.ones(1) * total_budget / spend_scaler`. -/
def BudgetOptimizer.generate_total_budget_constraint (s : BudgetOptimizer)
    (total_budget : ℚ) : LinearConstraint :=
  { A := List.replicate (s.n_budget_steps * s.n_optim_channels) 1
    lb := List.replicate 1 0
    ub := List.replicate 1 (total_budget / s.spend_scaler) }

/-- Constructor `BudgetOptimizer.__init__` (the state computation; channel
name sorting and data-frame access happen outside the embedded state). -/
def mkBudgetOptimizerRaw (dfWindow : List (List ℚ)) (nOptimChannels : ℕ)
    (response_scaler spend_scaler : ℚ)
    (total_budget_override : Option ℚ) : BudgetOptimizer :=
  let init_spend_matrix := dfWindow
  let n_budget_steps := dfWindow.length
  let total_budget :=
    match total_budget_override with
    | some v => if 0 < v then v else matSum init_spend_matrix
    | none => matSum init_spend_matrix
  let s0 : BudgetOptimizer :=
    { response_scaler := response_scaler
      spend_scaler := spend_scaler
      total_budget := total_budget
      n_optim_channels := nOptimChannels
      n_budget_steps := n_budget_steps
      init_spend_matrix := init_spend_matrix
      curr_spend_matrix := init_spend_matrix
      constraints := []
      budget_bounds :=
        { lb := List.replicate (n_budget_steps * nOptimChannels) 0
          ub := List.replicate (n_budget_steps * nOptimChannels)
              ((total_budget / spend_scaler : ℚ) : WithTop ℚ) } }
  s0.add_constraints [s0.generate_total_budget_constraint total_budget]

/-- Method `BudgetOptimizer.get_current_state`. -/
def BudgetOptimizer.get_current_state (s : BudgetOptimizer) : List (List ℚ) :=
  s.curr_spend_matrix

/-- Method `BudgetOptimizer.get_total_budget`. -/
def BudgetOptimizer.get_total_budget (s : BudgetOptimizer) : ℚ :=
  s.total_budget

/-- Method `BudgetOptimizer.get_init_state`. -/
def BudgetOptimizer.get_init_state (s : BudgetOptimizer) : List (List ℚ) :=
  s.init_spend_matrix

/-- Method `BudgetOptimizer.objective_func`: raises unconditionally. -/
def BudgetOptimizer.objective_func (_s : BudgetOptimizer)
    (_spend : List ℚ) : Except String ℚ :=
  Except.error abstractObjectiveMsg

/-- Method `BudgetOptimizer.optimize`, given the solver result `sol.x`:
reshape to `(-1, n_optim_channels)`, rescale by `spend_scaler`, round to 5
decimals, store as the current spend matrix. -/
def BudgetOptimizer.optimize (s : BudgetOptimizer) (sol_x : List ℚ) :
    BudgetOptimizer :=
  let optim_spend_matrix :=
    (reshapeRows (sol_x.length / s.n_optim_channels) s.n_optim_channels
        sol_x).map
      (fun row => row.map (fun v => round5 (v * s.spend_scaler)))
  { s with curr_spend_matrix := optim_spend_matrix }

/-- State of the channel-aggregate allocator `ChannelBudgetOptimizer`. -/
structure ChannelBudgetOptimizer where
  response_scaler : ℚ
  spend_scaler : ℚ
  total_budget : ℚ
  n_optim_channels : ℕ
  n_budget_steps : ℕ
  init_spend_matrix : List (List ℚ)
  init_spend_array : List ℚ
  curr_spend_matrix : List (List ℚ)
  curr_spend_array : List ℚ
  constraints : List LinearConstraint
  budget_bounds : Bounds
  weight : List ℚ
deriving DecidableEq

/-- Method `ChannelBudgetOptimizer.set_constraints`. -/
def ChannelBudgetOptimizer.set_constraints (s : ChannelBudgetOptimizer)
    (cs : List LinearConstraint) : ChannelBudgetOptimizer :=
  { s with constraints := cs }

/-- Method `ChannelBudgetOptimizer.add_constraints`. -/
def ChannelBudgetOptimizer.add_constraints (s : ChannelBudgetOptimizer)
    (cs : List LinearConstraint) : ChannelBudgetOptimizer :=
  { s with constraints := s.constraints ++ cs }

/-- Method `ChannelBudgetOptimizer.generate_total_budget_constraint`:
`A = np.ones(n_optim_channels)`. -/
def ChannelBudgetOptimizer.generate_total_budget_constraint
    (s : ChannelBudgetOptimizer) (total_budget : ℚ) : LinearConstraint :=
  { A := List.replicate s.n_optim_channels 1
    lb := List.replicate 1 0
    ub := List.replicate 1 (total_budget / s.spend_scaler) }

/-- Constructor `ChannelBudgetOptimizer.__init__` before its weight-length
validation: all field assignments, in source order. -/
def mkChannelBudgetOptimizerRaw (dfWindow : List (List ℚ))
    (nOptimChannels : ℕ) (response_scaler spend_scaler : ℚ)
    (total_budget_override : Option ℚ) (base_comp_input : List ℚ)
    (weight_opt : Option (List ℚ)) : ChannelBudgetOptimizer :=
  let init_spend_matrix := dfWindow
  let init_spend_array := colSums nOptimChannels init_spend_matrix
  let n_budget_steps := dfWindow.length
  let total_budget :=
    match total_budget_override with
    | some v => if 0 < v then v else init_spend_array.sum
    | none => init_spend_array.sum
  let weight :=
    match weight_opt with
    | none => base_comp_input.map (fun b => b / base_comp_input.sum)
    | some w => w
  let s0 : ChannelBudgetOptimizer :=
    { response_scaler := response_scaler
      spend_scaler := spend_scaler
      total_budget := total_budget
      n_optim_channels := nOptimChannels
      n_budget_steps := n_budget_steps
      init_spend_matrix := init_spend_matrix
      init_spend_array := init_spend_array
      curr_spend_matrix := init_spend_matrix
      curr_spend_array := init_spend_array
      constraints := []
      budget_bounds :=
        { lb := List.replicate nOptimChannels 0
          ub := List.replicate nOptimChannels (⊤ : WithTop ℚ) }
      weight := weight }
  s0.add_constraints [s0.generate_total_budget_constraint total_budget]

/-- Constructor `ChannelBudgetOptimizer.__init__` including the final
weight-length check, which raises when
`len(self.weight) != self.n_budget_steps`. -/
def mkChannelBudgetOptimizer (dfWindow : List (List ℚ))
    (nOptimChannels : ℕ) (response_scaler spend_scaler : ℚ)
    (total_budget_override : Option ℚ) (base_comp_input : List ℚ)
    (weight_opt : Option (List ℚ)) : Except String ChannelBudgetOptimizer :=
  let s := mkChannelBudgetOptimizerRaw dfWindow nOptimChannels
    response_scaler spend_scaler total_budget_override base_comp_input
    weight_opt
  if s.weight.length ≠ s.n_budget_steps then
    Except.error channelWeightLengthMsg
  else Except.ok s

/-- Method `ChannelBudgetOptimizer.get_current_state`. -/
def ChannelBudgetOptimizer.get_current_state
    (s : ChannelBudgetOptimizer) : List ℚ :=
  s.curr_spend_array

/-- Method `ChannelBudgetOptimizer.get_current_spend_matrix`. -/
def ChannelBudgetOptimizer.get_current_spend_matrix
    (s : ChannelBudgetOptimizer) : List (List ℚ) :=
  s.curr_spend_matrix

/-- Method `ChannelBudgetOptimizer.get_total_budget`. -/
def ChannelBudgetOptimizer.get_total_budget
    (s : ChannelBudgetOptimizer) : ℚ :=
  s.total_budget

/-- Method `ChannelBudgetOptimizer.get_init_state`. -/
def ChannelBudgetOptimizer.get_init_state
    (s : ChannelBudgetOptimizer) : List ℚ :=
  s.init_spend_array

/-- Method `ChannelBudgetOptimizer.get_init_spend_matrix`. -/
def ChannelBudgetOptimizer.get_init_spend_matrix
    (s : ChannelBudgetOptimizer) : List (List ℚ) :=
  s.init_spend_matrix

/-- Method `ChannelBudgetOptimizer.objective_func`: raises unconditionally. -/
def ChannelBudgetOptimizer.objective_func (_s : ChannelBudgetOptimizer)
    (_spend : List ℚ) : Except String ℚ :=
  Except.error abstractObjectiveMsg

/-- Method `ChannelBudgetOptimizer.optimize`, given the solver result
`sol.x`: rescale and round the per-channel totals, then redistribute over
time steps with the decomposition weight
(`optim_spend_array * np.ones((T, C)) * np.expand_dims(weight, -1)`), round
again, and store both current-state fields. -/
def ChannelBudgetOptimizer.optimize (s : ChannelBudgetOptimizer)
    (sol_x : List ℚ) : ChannelBudgetOptimizer :=
  let optim_spend_array := sol_x.map (fun v => round5 (v * s.spend_scaler))
  let optim_spend_matrix :=
    s.weight.map (fun w => optim_spend_array.map (fun a => round5 (a * w)))
  { s with curr_spend_matrix := optim_spend_matrix
           curr_spend_array := optim_spend_array }

/-- State of the time-aggregate allocator `TimeBudgetOptimizer`. -/
structure TimeBudgetOptimizer where
  response_scaler : ℚ
  spend_scaler : ℚ
  total_budget : ℚ
  n_optim_channels : ℕ
  n_budget_steps : ℕ
  init_spend_matrix : List (List ℚ)
  init_spend_array : List ℚ
  curr_spend_matrix : List (List ℚ)
  curr_spend_array : List ℚ
  constraints : List LinearConstraint
  budget_bounds : Bounds
  weight : List ℚ
  lb_ratio : ℚ
  ub_ratio : ℚ
deriving DecidableEq

/-- Method `TimeBudgetOptimizer.set_constraints`. -/
def TimeBudgetOptimizer.set_constraints (s : TimeBudgetOptimizer)
    (cs : List LinearConstraint) : TimeBudgetOptimizer :=
  { s with constraints := cs }

/-- Method `TimeBudgetOptimizer.add_constraints`. -/
def TimeBudgetOptimizer.add_constraints (s : TimeBudgetOptimizer)
    (cs : List LinearConstraint) : TimeBudgetOptimizer :=
  { s with constraints := s.constraints ++ cs }

/-- Method `TimeBudgetOptimizer.generate_total_budget_constraint`:
`A = np.ones(n_budget_steps)`. -/
def TimeBudgetOptimizer.generate_total_budget_constraint
    (s : TimeBudgetOptimizer) (total_budget : ℚ) : LinearConstraint :=
  { A := List.replicate s.n_budget_steps 1
    lb := List.replicate 1 0
    ub := List.replicate 1 (total_budget / s.spend_scaler) }

/-- Constructor `TimeBudgetOptimizer.__init__` before its weight-length
validation: all field assignments, in source order. -/
def mkTimeBudgetOptimizerRaw (dfWindow : List (List ℚ))
    (nOptimChannels : ℕ) (response_scaler spend_scaler : ℚ)
    (total_budget_override : Option ℚ) (weight_opt : Option (List ℚ))
    (lb_ratio ub_ratio : ℚ) : TimeBudgetOptimizer :=
  let init_spend_matrix := dfWindow
  let init_spend_array := rowSums init_spend_matrix
  let n_budget_steps := dfWindow.length
  let total_budget :=
    match total_budget_override with
    | some v => if 0 < v then v else init_spend_array.sum
    | none => init_spend_array.sum
  let weight :=
    match weight_opt with
    | none =>
      (colSums nOptimChannels init_spend_matrix).map
        (fun v => v / matSum init_spend_matrix)
    | some w => w
  let s0 : TimeBudgetOptimizer :=
    { response_scaler := response_scaler
      spend_scaler := spend_scaler
      total_budget := total_budget
      n_optim_channels := nOptimChannels
      n_budget_steps := n_budget_steps
      init_spend_matrix := init_spend_matrix
      init_spend_array := init_spend_array
      curr_spend_matrix := init_spend_matrix
      curr_spend_array := init_spend_array
      constraints := []
      budget_bounds :=
        { lb := List.replicate n_budget_steps 0
          ub := List.replicate n_budget_steps (⊤ : WithTop ℚ) }
      weight := weight
      lb_ratio := lb_ratio
      ub_ratio := ub_ratio }
  s0.add_constraints [s0.generate_total_budget_constraint total_budget]

/-- Constructor `TimeBudgetOptimizer.__init__` including the final
weight-length check, which raises when
`len(self.weight) != self.n_optim_channels`. -/
def mkTimeBudgetOptimizer (dfWindow : List (List ℚ))
    (nOptimChannels : ℕ) (response_scaler spend_scaler : ℚ)
    (total_budget_override : Option ℚ) (weight_opt : Option (List ℚ))
    (lb_ratio ub_ratio : ℚ) : Except String TimeBudgetOptimizer :=
  let s := mkTimeBudgetOptimizerRaw dfWindow nOptimChannels response_scaler
    spend_scaler total_budget_override weight_opt lb_ratio ub_ratio
  if s.weight.length ≠ s.n_optim_channels then
    Except.error timeWeightLengthMsg
  else Except.ok s

/-- Method `TimeBudgetOptimizer.get_current_state`. -/
def TimeBudgetOptimizer.get_current_state
    (s : TimeBudgetOptimizer) : List ℚ :=
  s.curr_spend_array

/-- Method `TimeBudgetOptimizer.get_current_spend_matrix`. -/
def TimeBudgetOptimizer.get_current_spend_matrix
    (s : TimeBudgetOptimizer) : List (List ℚ) :=
  s.curr_spend_matrix

/-- Method `TimeBudgetOptimizer.get_total_budget`. -/
def TimeBudgetOptimizer.get_total_budget (s : TimeBudgetOptimizer) : ℚ :=
  s.total_budget

/-- Method `TimeBudgetOptimizer.get_init_state`. -/
def TimeBudgetOptimizer.get_init_state (s : TimeBudgetOptimizer) : List ℚ :=
  s.init_spend_array

/-- Method `TimeBudgetOptimizer.get_init_spend_matrix`. -/
def TimeBudgetOptimizer.get_init_spend_matrix
    (s : TimeBudgetOptimizer) : List (List ℚ) :=
  s.init_spend_matrix

/-- Method `TimeBudgetOptimizer.objective_func`: raises unconditionally. -/
def TimeBudgetOptimizer.objective_func (_s : TimeBudgetOptimizer)
    (_spend : List ℚ) : Except String ℚ :=
  Except.error abstractObjectiveMsg

/-- Method `TimeBudgetOptimizer.optimize`, given the solver result `sol.x`:
rescale and round the per-step totals, then redistribute over channels with
the decomposition weight
(`np.expand_dims(optim_spend_array, -1) * np.ones((T, C)) * weight`), round
again, and store both current-state fields. -/
def TimeBudgetOptimizer.optimize (s : TimeBudgetOptimizer)
    (sol_x : List ℚ) : TimeBudgetOptimizer :=
  let optim_spend_array := sol_x.map (fun v => round5 (v * s.spend_scaler))
  let optim_spend_matrix :=
    optim_spend_array.map (fun a => s.weight.map (fun w => round5 (a * w)))
  { s with curr_spend_matrix := optim_spend_matrix
           curr_spend_array := optim_spend_array }

/-- The half-to-even rounding of `q` never exceeds `q + 1/2`. -/
theorem roundHalfEven_le (q : ℚ) : (roundHalfEven q : ℚ) ≤ q + 1/2 := by
  have hf : ((⌊q⌋ : ℤ) : ℚ) ≤ q := Int.floor_le q
  unfold roundHalfEven
  split_ifs with h1 h2 h3 <;> push_cast <;> linarith

/-- Rounding half to even preserves nonnegativity. -/
theorem roundHalfEven_nonneg (q : ℚ) (h : 0 ≤ q) : 0 ≤ roundHalfEven q := by
  have hf : (0 : ℤ) ≤ ⌊q⌋ := Int.floor_nonneg.mpr h
  unfold roundHalfEven
  split_ifs <;> omega

/-- Rounding to 5 decimals adds at most `1/200000`. -/
theorem round5_le (q : ℚ) : round5 q ≤ q + 1/200000 := by
  have h := roundHalfEven_le (q * 100000)
  rw [round5, div_le_iff₀ (by norm_num : (0:ℚ) < 100000)]
  linarith

/-- Rounding to 5 decimals preserves nonnegativity. -/
theorem round5_nonneg (q : ℚ) (h : 0 ≤ q) : 0 ≤ round5 q := by
  have h1 : 0 ≤ roundHalfEven (q * 100000) :=
    roundHalfEven_nonneg _ (by positivity)
  rw [round5]
  positivity

/-- Summing a pointwise bound `f x ≤ g x + c` over a list. -/
theorem listSum_map_le_add {α : Type} (l : List α) (f g : α → ℚ) (c : ℚ)
    (h : ∀ x ∈ l, f x ≤ g x + c) :
    (l.map f).sum ≤ (l.map g).sum + l.length * c := by
  induction l with
  | nil => simp
  | cons a t ih =>
    have h1 := h a (List.mem_cons_self a t)
    have h2 := ih (fun x hx => h x (List.mem_cons_of_mem a hx))
    simp only [List.map_cons, List.sum_cons, List.length_cons]
    push_cast
    linarith

/-- A sum of pointwise-nonnegative mapped values is nonnegative. -/
theorem listSum_map_nonneg {α : Type} (l : List α) (f : α → ℚ)
    (h : ∀ x ∈ l, 0 ≤ f x) : 0 ≤ (l.map f).sum := by
  induction l with
  | nil => simp
  | cons a t ih =>
    have h1 := h a (List.mem_cons_self a t)
    have h2 := ih (fun x hx => h x (List.mem_cons_of_mem a hx))
    simp only [List.map_cons, List.sum_cons]
    linarith

/-- Scalar multiplication on the right distributes over a list sum. -/
theorem listSum_map_mul_right (l : List ℚ) (w : ℚ) :
    (l.map (fun v => v * w)).sum = l.sum * w := by
  induction l with
  | nil => simp
  | cons a t ih => simp [ih, add_mul]

/-- Scalar multiplication on the left distributes over a list sum. -/
theorem listSum_map_mul_left (l : List ℚ) (v : ℚ) :
    (l.map (fun w => v * w)).sum = v * l.sum := by
  induction l with
  | nil => simp
  | cons a t ih => simp [ih, mul_add]

/-- Summing `r.getD j 0` over `j < r.length` recovers `r.sum`. -/
theorem sum_range_getD (r : List ℚ) :
    ((List.range r.length).map (fun j => r.getD j 0)).sum = r.sum := by
  induction r with
  | nil => simp
  | cons a t ih =>
    rw [List.length_cons, List.range_succ_eq_map, List.map_cons, List.sum_cons,
      List.map_map]
    have he : ((fun j => (a :: t).getD j 0) ∘ Nat.succ) = fun j => t.getD j 0 := by
      funext j
      rfl
    rw [he, ih]
    rfl

/-- Mapped pointwise sums split into two list sums. -/
theorem listSum_map_add {α : Type} (l : List α) (f g : α → ℚ) :
    (l.map (fun x => f x + g x)).sum = (l.map f).sum + (l.map g).sum := by
  induction l with
  | nil => simp
  | cons a t ih =>
    simp only [List.map_cons, List.sum_cons, ih]
    ring

/-- When every row has length `n`, the column sums of a matrix add up to
the full matrix sum (`np.sum(m, 0).sum() == np.sum(m)`). -/
theorem colSums_sum (n : ℕ) (m : List (List ℚ))
    (h : ∀ r ∈ m, r.length = n) : (colSums n m).sum = matSum m := by
  induction m with
  | nil =>
    simp only [colSums, matSum, List.map_nil, List.sum_nil]
    induction (List.range n) with
    | nil => simp
    | cons a t ih => simp [ih]
  | cons r t ih =>
    have hr : r.length = n := h r (List.mem_cons_self r t)
    have ht := ih (fun x hx => h x (List.mem_cons_of_mem r hx))
    simp only [colSums, List.map_cons, List.sum_cons] at *
    have hsplit : (List.map (fun j => r.getD j 0 +
        (List.map (fun row => row.getD j 0) t).sum) (List.range n)).sum
        = (List.map (fun j => r.getD j 0) (List.range n)).sum +
          (List.map (fun j => (List.map (fun row => row.getD j 0) t).sum)
            (List.range n)).sum := listSum_map_add _ _ _
    rw [hsplit, ht]
    have := sum_range_getD r
    rw [hr] at this
    rw [this]
    rfl

/-- The total of a reshaped-and-mapped flat vector is the mapped sum of
its first `R * C` entries. -/
theorem matSum_reshape_map (f : ℚ → ℚ) :
    ∀ (R C : ℕ) (x : List ℚ),
      matSum ((reshapeRows R C x).map (fun row => row.map f))
        = ((x.take (R * C)).map f).sum := by
  intro R
  induction R with
  | zero => intro C x; simp [reshapeRows, matSum]
  | succ r ih =>
    intro C x
    have hadd : (r + 1) * C = C + r * C := by ring
    rw [hadd, List.take_add, List.map_append, List.sum_append]
    simp only [reshapeRows, List.map_cons, matSum, List.sum_cons]
    have := ih C (x.drop C)
    simp only [matSum] at this
    rw [this]

/-- Every entry of a row produced by `reshapeRows` comes from the flat
input vector. -/
theorem mem_reshapeRows :
    ∀ (R C : ℕ) (x : List ℚ) (l : List ℚ), l ∈ reshapeRows R C x →
      ∀ v ∈ l, v ∈ x := by
  intro R
  induction R with
  | zero => intro C x l hl; simp [reshapeRows] at hl
  | succ r ih =>
    intro C x l hl v hv
    simp only [reshapeRows, List.mem_cons] at hl
    rcases hl with h | h
    · exact List.take_subset C x (h ▸ hv)
    · exact List.drop_subset C x (ih C (x.drop C) l h v hv)

/-- The matrix sum of rows built by mapping is the sum of the row sums. -/
theorem matSum_map_rows {α : Type} (l : List α) (F : α → List ℚ) :
    matSum (l.map F) = (l.map (fun a => (F a).sum)).sum := by
  rw [matSum, List.map_map]
  rfl

/-- Budget bound for the channel-aggregate reconstruction: the rounded
outer product of `a` and `w` is at most `a.sum * w.sum` plus rounding
slack. -/
theorem channelDoubleSum_le (a w : List ℚ) :
    (w.map (fun wt => (a.map (fun v => round5 (v * wt))).sum)).sum
      ≤ a.sum * w.sum + w.length * (a.length * (1/200000)) := by
  have houter : ∀ wt ∈ w,
      (a.map (fun v => round5 (v * wt))).sum
        ≤ a.sum * wt + a.length * (1/200000) := by
    intro wt _
    have h1 := listSum_map_le_add a (fun v => round5 (v * wt))
      (fun v => v * wt) (1/200000) (fun v _ => round5_le (v * wt))
    rw [listSum_map_mul_right] at h1
    exact h1
  have h2 := listSum_map_le_add w
    (fun wt => (a.map (fun v => round5 (v * wt))).sum)
    (fun wt => a.sum * wt) (a.length * (1/200000)) houter
  rw [listSum_map_mul_left] at h2
  linarith

/-- Budget bound for the time-aggregate reconstruction: the rounded outer
product of `a` and `w` is at most `a.sum * w.sum` plus rounding slack. -/
theorem timeDoubleSum_le (a w : List ℚ) :
    (a.map (fun v => (w.map (fun wt => round5 (v * wt))).sum)).sum
      ≤ a.sum * w.sum + a.length * (w.length * (1/200000)) := by
  have houter : ∀ v ∈ a,
      (w.map (fun wt => round5 (v * wt))).sum
        ≤ v * w.sum + w.length * (1/200000) := by
    intro v _
    have h1 := listSum_map_le_add w (fun wt => round5 (v * wt))
      (fun wt => v * wt) (1/200000) (fun wt _ => round5_le (v * wt))
    rw [listSum_map_mul_left] at h1
    exact h1
  have h2 := listSum_map_le_add a
    (fun v => (w.map (fun wt => round5 (v * wt))).sum)
    (fun v => v * w.sum) (w.length * (1/200000)) houter
  rw [listSum_map_mul_right] at h2
  linarith

/-- The rounded rescaled solver vector sums to at most the total budget
plus rounding slack, when the scaled sum respects the budget constraint. -/
theorem rescaledArray_sum_le (x : List ℚ) (ss tb : ℚ) (hss : 0 < ss)
    (hsum : x.sum ≤ tb / ss) :
    (x.map (fun v => round5 (v * ss))).sum ≤ tb + x.length * (1/200000) := by
  have h1 := listSum_map_le_add x (fun v => round5 (v * ss))
    (fun v => v * ss) (1/200000) (fun v _ => round5_le (v * ss))
  rw [listSum_map_mul_right] at h1
  have h2 : x.sum * ss ≤ tb := by
    have := mul_le_mul_of_nonneg_right hsum hss.le
    rwa [div_mul_cancel₀ _ (ne_of_gt hss)] at this
  linarith

/-- The rounded rescaled solver vector is entrywise nonnegative for a
nonnegative solver point and nonnegative scaler. -/
theorem rescaledArray_nonneg (x : List ℚ) (ss : ℚ) (hss : 0 ≤ ss)
    (hx : ∀ v ∈ x, 0 ≤ v) :
    ∀ u ∈ x.map (fun v => round5 (v * ss)), 0 ≤ u := by
  intro u hu
  obtain ⟨v, hv, rfl⟩ := List.mem_map.mp hu
  exact round5_nonneg _ (mul_nonneg (hx v hv) hss)

/-- Full-grid variant: a solver point that is nonnegative and satisfies
the total-budget constraint reconstructs to a nonnegative matrix whose sum
is at most `total_budget` plus the 5-decimal rounding slack. -/
theorem full_optimize_feasible (s : BudgetOptimizer) (x : List ℚ)
    (hss : 0 < s.spend_scaler)
    (hx : ∀ v ∈ x, 0 ≤ v)
    (hsum : x.sum ≤ s.total_budget / s.spend_scaler) :
    (∀ row ∈ (s.optimize x).curr_spend_matrix, ∀ v ∈ row, 0 ≤ v) ∧
      matSum (s.optimize x).curr_spend_matrix
        ≤ s.total_budget + (x.length : ℚ) * (1/200000) := by
  constructor
  · intro row hrow v hv
    simp only [BudgetOptimizer.optimize] at hrow
    obtain ⟨l, hl, rfl⟩ := List.mem_map.mp hrow
    obtain ⟨u, hu, rfl⟩ := List.mem_map.mp hv
    have hux : u ∈ x := mem_reshapeRows _ _ _ _ hl u hu
    exact round5_nonneg _ (mul_nonneg (hx u hux) hss.le)
  · simp only [BudgetOptimizer.optimize]
    rw [matSum_reshape_map]
    set k := x.length / s.n_optim_channels * s.n_optim_channels with hk
    have h1 := listSum_map_le_add (x.take k)
      (fun v => round5 (v * s.spend_scaler))
      (fun v => v * s.spend_scaler) (1/200000)
      (fun v _ => round5_le (v * s.spend_scaler))
    rw [listSum_map_mul_right] at h1
    have htake : (x.take k).sum ≤ x.sum := by
      have hsplit := List.sum_take_add_sum_drop x k
      have hdrop : 0 ≤ (x.drop k).sum :=
        List.sum_nonneg (fun v hv => hx v (List.drop_subset k x hv))
      linarith
    have hlen : ((x.take k).length : ℚ) ≤ (x.length : ℚ) := by
      have h := List.length_take k x
      have : (x.take k).length ≤ x.length := by omega
      exact_mod_cast this
    have h2 : x.sum * s.spend_scaler ≤ s.total_budget := by
      have := mul_le_mul_of_nonneg_right hsum hss.le
      rwa [div_mul_cancel₀ _ (ne_of_gt hss)] at this
    have h3 : (x.take k).sum * s.spend_scaler ≤ x.sum * s.spend_scaler :=
      mul_le_mul_of_nonneg_right htake hss.le
    linarith

/-- Channel-aggregate variant: with a feasible solver point and a
nonnegative decomposition weight summing to at most 1, the reconstructed
matrix is nonnegative and its sum stays within `total_budget` plus rounding
slack. -/
theorem channel_optimize_feasible (s : ChannelBudgetOptimizer) (x : List ℚ)
    (hss : 0 < s.spend_scaler)
    (hx : ∀ v ∈ x, 0 ≤ v)
    (hsum : x.sum ≤ s.total_budget / s.spend_scaler)
    (hw : ∀ w ∈ s.weight, 0 ≤ w)
    (hw1 : s.weight.sum ≤ 1) :
    (∀ row ∈ (s.optimize x).curr_spend_matrix, ∀ v ∈ row, 0 ≤ v) ∧
      matSum (s.optimize x).curr_spend_matrix
        ≤ s.total_budget
          + (x.length : ℚ) * (1 + (s.weight.length : ℚ)) * (1/200000) := by
  have ha_nonneg : ∀ u ∈ x.map (fun v => round5 (v * s.spend_scaler)), 0 ≤ u :=
    rescaledArray_nonneg x s.spend_scaler hss.le hx
  constructor
  · intro row hrow v hv
    simp only [ChannelBudgetOptimizer.optimize] at hrow
    obtain ⟨wt, hwt, rfl⟩ := List.mem_map.mp hrow
    obtain ⟨u, hu, rfl⟩ := List.mem_map.mp hv
    exact round5_nonneg _ (mul_nonneg (ha_nonneg u hu) (hw wt hwt))
  · have hkey : (s.optimize x).curr_spend_matrix
        = s.weight.map (fun w =>
            (x.map (fun v => round5 (v * s.spend_scaler))).map
              (fun a => round5 (a * w))) := rfl
    rw [hkey, matSum_map_rows]
    have hdouble := channelDoubleSum_le
      (x.map (fun v => round5 (v * s.spend_scaler))) s.weight
    have hasum_nonneg : 0 ≤ (x.map (fun v => round5 (v * s.spend_scaler))).sum :=
      List.sum_nonneg ha_nonneg
    have hasum := rescaledArray_sum_le x s.spend_scaler s.total_budget hss hsum
    have hwle : (x.map (fun v => round5 (v * s.spend_scaler))).sum * s.weight.sum
        ≤ (x.map (fun v => round5 (v * s.spend_scaler))).sum :=
      mul_le_of_le_one_right hasum_nonneg hw1
    have hlen : ((x.map (fun v => round5 (v * s.spend_scaler))).length : ℚ)
        = (x.length : ℚ) := by
      rw [List.length_map]
    rw [hlen] at hdouble
    nlinarith [hdouble, hasum, hwle]

/-- Time-aggregate variant: with a feasible solver point and a nonnegative
decomposition weight summing to at most 1, the reconstructed matrix is
nonnegative and its sum stays within `total_budget` plus rounding slack. -/
theorem time_optimize_feasible (s : TimeBudgetOptimizer) (x : List ℚ)
    (hss : 0 < s.spend_scaler)
    (hx : ∀ v ∈ x, 0 ≤ v)
    (hsum : x.sum ≤ s.total_budget / s.spend_scaler)
    (hw : ∀ w ∈ s.weight, 0 ≤ w)
    (hw1 : s.weight.sum ≤ 1) :
    (∀ row ∈ (s.optimize x).curr_spend_matrix, ∀ v ∈ row, 0 ≤ v) ∧
      matSum (s.optimize x).curr_spend_matrix
        ≤ s.total_budget
          + (x.length : ℚ) * (1 + (s.weight.length : ℚ)) * (1/200000) := by
  have ha_nonneg : ∀ u ∈ x.map (fun v => round5 (v * s.spend_scaler)), 0 ≤ u :=
    rescaledArray_nonneg x s.spend_scaler hss.le hx
  constructor
  · intro row hrow v hv
    simp only [TimeBudgetOptimizer.optimize] at hrow
    obtain ⟨u, hu, rfl⟩ := List.mem_map.mp hrow
    obtain ⟨wt, hwt, rfl⟩ := List.mem_map.mp hv
    exact round5_nonneg _ (mul_nonneg (ha_nonneg u hu) (hw wt hwt))
  · have hkey : (s.optimize x).curr_spend_matrix
        = (x.map (fun v => round5 (v * s.spend_scaler))).map
            (fun a => s.weight.map (fun w => round5 (a * w))) := rfl
    rw [hkey, matSum_map_rows]
    have hdouble := timeDoubleSum_le
      (x.map (fun v => round5 (v * s.spend_scaler))) s.weight
    have hasum_nonneg : 0 ≤ (x.map (fun v => round5 (v * s.spend_scaler))).sum :=
      List.sum_nonneg ha_nonneg
    have hasum := rescaledArray_sum_le x s.spend_scaler s.total_budget hss hsum
    have hwle : (x.map (fun v => round5 (v * s.spend_scaler))).sum * s.weight.sum
        ≤ (x.map (fun v => round5 (v * s.spend_scaler))).sum :=
      mul_le_of_le_one_right hasum_nonneg hw1
    have hlen : ((x.map (fun v => round5 (v * s.spend_scaler))).length : ℚ)
        = (x.length : ℚ) := by
      rw [List.length_map]
    rw [hlen] at hdouble
    nlinarith [hdouble, hasum, hwle]

/-- C7: invoking `objective_func` on a base (non-overridden) allocator of
any of the three variants returns the unimplemented-objective error for
every input spend vector, immediately and unconditionally. -/
theorem c7_objective_func_always_raises :
    (∀ (s : BudgetOptimizer) (spend : List ℚ),
      s.objective_func spend = Except.error abstractObjectiveMsg)
    ∧ (∀ (s : ChannelBudgetOptimizer) (spend : List ℚ),
      s.objective_func spend = Except.error abstractObjectiveMsg)
    ∧ (∀ (s : TimeBudgetOptimizer) (spend : List ℚ),
      s.objective_func spend = Except.error abstractObjectiveMsg) :=
  ⟨fun _ _ => rfl, fun _ _ => rfl, fun _ _ => rfl⟩

/-- C8: for every allocator instance, `get_init_state()` is unchanged by
`optimize()` (the initial state is never mutated), while after `optimize()`
`get_current_state()` returns the newly reconstructed solution, the rounded
rescaled solver result. -/
theorem c8_init_state_immutable_current_state_updated :
    (∀ (s : BudgetOptimizer) (x : List ℚ),
      (s.optimize x).get_init_state = s.get_init_state
      ∧ (s.optimize x).get_current_state
        = (reshapeRows (x.length / s.n_optim_channels) s.n_optim_channels
            x).map (fun row => row.map (fun v => round5 (v * s.spend_scaler))))
    ∧ (∀ (s : ChannelBudgetOptimizer) (x : List ℚ),
      (s.optimize x).get_init_state = s.get_init_state
      ∧ (s.optimize x).get_init_spend_matrix = s.get_init_spend_matrix
      ∧ (s.optimize x).get_current_state
        = x.map (fun v => round5 (v * s.spend_scaler)))
    ∧ (∀ (s : TimeBudgetOptimizer) (x : List ℚ),
      (s.optimize x).get_init_state = s.get_init_state
      ∧ (s.optimize x).get_init_spend_matrix = s.get_init_spend_matrix
      ∧ (s.optimize x).get_current_state
        = x.map (fun v => round5 (v * s.spend_scaler))) :=
  ⟨fun _ _ => ⟨rfl, rfl⟩, fun _ _ => ⟨rfl, rfl, rfl⟩, fun _ _ => ⟨rfl, rfl, rfl⟩⟩

/-- C3: for every allocator variant and every total-budget value,
`generate_total_budget_constraint` produces exactly one linear constraint
whose coefficient vector is all ones over the variant's decision dimension
(steps*channels, channels, steps respectively), with lower bound 0 and
upper bound `total_budget / spend_scaler`; construction installs exactly
that single constraint. -/
theorem c3_total_budget_constraint_all_ones :
    (∀ (df : List (List ℚ)) (n : ℕ) (rs ss : ℚ) (o : Option ℚ) (tb : ℚ),
      (mkBudgetOptimizerRaw df n rs ss o).generate_total_budget_constraint tb
        = ⟨List.replicate (df.length * n) 1, [0], [tb / ss]⟩
      ∧ (mkBudgetOptimizerRaw df n rs ss o).constraints
        = [(mkBudgetOptimizerRaw df n rs ss o).generate_total_budget_constraint
            (mkBudgetOptimizerRaw df n rs ss o).total_budget])
    ∧ (∀ (df : List (List ℚ)) (n : ℕ) (rs ss : ℚ) (o : Option ℚ)
        (bc : List ℚ) (w : Option (List ℚ)) (tb : ℚ),
      (mkChannelBudgetOptimizerRaw df n rs ss o bc
          w).generate_total_budget_constraint tb
        = ⟨List.replicate n 1, [0], [tb / ss]⟩
      ∧ (mkChannelBudgetOptimizerRaw df n rs ss o bc w).constraints
        = [(mkChannelBudgetOptimizerRaw df n rs ss o bc
            w).generate_total_budget_constraint
            (mkChannelBudgetOptimizerRaw df n rs ss o bc w).total_budget])
    ∧ (∀ (df : List (List ℚ)) (n : ℕ) (rs ss : ℚ) (o : Option ℚ)
        (w : Option (List ℚ)) (lr ur : ℚ) (tb : ℚ),
      (mkTimeBudgetOptimizerRaw df n rs ss o w lr
          ur).generate_total_budget_constraint tb
        = ⟨List.replicate df.length 1, [0], [tb / ss]⟩
      ∧ (mkTimeBudgetOptimizerRaw df n rs ss o w lr ur).constraints
        = [(mkTimeBudgetOptimizerRaw df n rs ss o w lr
            ur).generate_total_budget_constraint
            (mkTimeBudgetOptimizerRaw df n rs ss o w lr ur).total_budget]) :=
  ⟨fun _ _ _ _ _ _ => ⟨rfl, rfl⟩, fun _ _ _ _ _ _ _ _ => ⟨rfl, rfl⟩,
   fun _ _ _ _ _ _ _ _ _ => ⟨rfl, rfl⟩⟩

/-- C4: the decision-vector bounds built at construction have lower bound
0 for every variable; the upper bound is `total_budget / spend_scaler` for
every variable in the full-grid variant and positive infinity for every
variable in the channel-aggregate and time-aggregate variants. -/
theorem c4_bounds_shape :
    (∀ (df : List (List ℚ)) (n : ℕ) (rs ss : ℚ) (o : Option ℚ),
      (mkBudgetOptimizerRaw df n rs ss o).budget_bounds
        = ⟨List.replicate (df.length * n) 0,
           List.replicate (df.length * n)
             (((mkBudgetOptimizerRaw df n rs ss o).total_budget / ss : ℚ)
               : WithTop ℚ)⟩)
    ∧ (∀ (df : List (List ℚ)) (n : ℕ) (rs ss : ℚ) (o : Option ℚ)
        (bc : List ℚ) (w : Option (List ℚ)),
      (mkChannelBudgetOptimizerRaw df n rs ss o bc w).budget_bounds
        = ⟨List.replicate n 0, List.replicate n (⊤ : WithTop ℚ)⟩)
    ∧ (∀ (df : List (List ℚ)) (n : ℕ) (rs ss : ℚ) (o : Option ℚ)
        (w : Option (List ℚ)) (lr ur : ℚ),
      (mkTimeBudgetOptimizerRaw df n rs ss o w lr ur).budget_bounds
        = ⟨List.replicate df.length 0,
           List.replicate df.length (⊤ : WithTop ℚ)⟩) :=
  ⟨fun _ _ _ _ _ => rfl, fun _ _ _ _ _ _ _ => rfl, fun _ _ _ _ _ _ _ _ => rfl⟩

/-- C9: the time-aggregate variant stores `lb_ratio` and `ub_ratio` but
never consumes them: for any two ratio settings and otherwise identical
inputs, the constructed bounds, constraints, and the result of `optimize`
are identical. -/
theorem c9_lb_ub_ratio_stored_but_unused :
    ∀ (df : List (List ℚ)) (n : ℕ) (rs ss : ℚ) (o : Option ℚ)
      (w : Option (List ℚ)) (lr1 ur1 lr2 ur2 : ℚ) (x : List ℚ),
      (mkTimeBudgetOptimizerRaw df n rs ss o w lr1 ur1).lb_ratio = lr1
      ∧ (mkTimeBudgetOptimizerRaw df n rs ss o w lr1 ur1).ub_ratio = ur1
      ∧ (mkTimeBudgetOptimizerRaw df n rs ss o w lr1 ur1).budget_bounds
        = (mkTimeBudgetOptimizerRaw df n rs ss o w lr2 ur2).budget_bounds
      ∧ (mkTimeBudgetOptimizerRaw df n rs ss o w lr1 ur1).constraints
        = (mkTimeBudgetOptimizerRaw df n rs ss o w lr2 ur2).constraints
      ∧ ((mkTimeBudgetOptimizerRaw df n rs ss o w lr1 ur1).optimize
          x).curr_spend_matrix
        = ((mkTimeBudgetOptimizerRaw df n rs ss o w lr2 ur2).optimize
          x).curr_spend_matrix
      ∧ ((mkTimeBudgetOptimizerRaw df n rs ss o w lr1 ur1).optimize
          x).curr_spend_array
        = ((mkTimeBudgetOptimizerRaw df n rs ss o w lr2 ur2).optimize
          x).curr_spend_array :=
  fun _ _ _ _ _ _ _ _ _ _ _ => ⟨rfl, rfl, rfl, rfl, rfl, rfl⟩

/-- C5: if `total_budget_override` is omitted, the allocator's
`total_budget` equals the sum of the initial spend values within the
optimization window, for each of the three variants (for the
channel-aggregate variant, via the column sums of a rectangular window). -/
theorem c5_default_total_budget_is_window_sum :
    (∀ (df : List (List ℚ)) (n : ℕ) (rs ss : ℚ),
      (mkBudgetOptimizerRaw df n rs ss none).total_budget = matSum df)
    ∧ (∀ (df : List (List ℚ)) (n : ℕ) (rs ss : ℚ) (bc : List ℚ)
        (w : Option (List ℚ)), (∀ r ∈ df, r.length = n) →
      (mkChannelBudgetOptimizerRaw df n rs ss none bc w).total_budget
        = matSum df)
    ∧ (∀ (df : List (List ℚ)) (n : ℕ) (rs ss : ℚ) (w : Option (List ℚ))
        (lr ur : ℚ),
      (mkTimeBudgetOptimizerRaw df n rs ss none w lr ur).total_budget
        = matSum df) := by
  refine ⟨fun _ _ _ _ => rfl, ?_, fun _ _ _ _ _ _ _ => rfl⟩
  intro df n rs ss bc w h
  have hcs : (mkChannelBudgetOptimizerRaw df n rs ss none bc w).total_budget
      = (colSums n df).sum := rfl
  rw [hcs, colSums_sum n df h]

/-- C6: supplying a decomposition weight whose length differs from the
expected dimension (time steps for channel-aggregate, channels for
time-aggregate) makes construction raise the configuration error, so no
solve can execute on such an instance. -/
theorem c6_wrong_weight_length_raises :
    (∀ (df : List (List ℚ)) (n : ℕ) (rs ss : ℚ) (o : Option ℚ)
        (bc : List ℚ) (w : List ℚ), w.length ≠ df.length →
      mkChannelBudgetOptimizer df n rs ss o bc (some w)
        = Except.error channelWeightLengthMsg)
    ∧ (∀ (df : List (List ℚ)) (n : ℕ) (rs ss : ℚ) (o : Option ℚ)
        (w : List ℚ) (lr ur : ℚ), w.length ≠ n →
      mkTimeBudgetOptimizer df n rs ss o (some w) lr ur
        = Except.error timeWeightLengthMsg) := by
  constructor
  · intro df n rs ss o bc w h
    have hcond : (mkChannelBudgetOptimizerRaw df n rs ss o bc
        (some w)).weight.length
        ≠ (mkChannelBudgetOptimizerRaw df n rs ss o bc
            (some w)).n_budget_steps := h
    simp only [mkChannelBudgetOptimizer]
    rw [if_pos hcond]
  · intro df n rs ss o w lr ur h
    have hcond : (mkTimeBudgetOptimizerRaw df n rs ss o (some w) lr
        ur).weight.length
        ≠ (mkTimeBudgetOptimizerRaw df n rs ss o (some w) lr
            ur).n_optim_channels := h
    simp only [mkTimeBudgetOptimizer]
    rw [if_pos hcond]

/-- C10: a `total_budget_override` that is nonpositive is silently
ignored: construction produces exactly the same allocator as passing no
override, with no error raised, for all three variants. -/
theorem c10_nonpositive_override_silently_ignored :
    ∀ (df : List (List ℚ)) (n : ℕ) (rs ss : ℚ) (bc : List ℚ)
      (w : Option (List ℚ)) (lr ur v : ℚ), v ≤ 0 →
      mkBudgetOptimizerRaw df n rs ss (some v)
        = mkBudgetOptimizerRaw df n rs ss none
      ∧ mkChannelBudgetOptimizer df n rs ss (some v) bc w
        = mkChannelBudgetOptimizer df n rs ss none bc w
      ∧ mkTimeBudgetOptimizer df n rs ss (some v) w lr ur
        = mkTimeBudgetOptimizer df n rs ss none w lr ur := by
  intro df n rs ss bc w lr ur v hv
  have hnv : ¬ (0 < v) := not_lt.mpr hv
  refine ⟨?_, ?_, ?_⟩
  · simp only [mkBudgetOptimizerRaw, hnv, if_false]
  · simp only [mkChannelBudgetOptimizer, mkChannelBudgetOptimizerRaw, hnv,
      if_false]
  · simp only [mkTimeBudgetOptimizer, mkTimeBudgetOptimizerRaw, hnv, if_false]

/-- C2: after `optimize`, the channel-aggregate variant satisfies
`matrix[t][c] = round5(total[c] * weight[t])` and the time-aggregate
variant satisfies `matrix[t][c] = round5(total[t] * weight[c])`, where
`total` is the aggregate array returned as the new current state and
`weight` is the configured decomposition weight. -/
theorem c2_reconstruction_cell_formula :
    (∀ (s : ChannelBudgetOptimizer) (x : List ℚ) (t c : ℕ),
      t < s.weight.length → c < x.length →
      ((s.optimize x).curr_spend_matrix.getD t []).getD c 0
        = round5 ((s.optimize x).curr_spend_array.getD c 0
            * s.weight.getD t 0))
    ∧ (∀ (s : TimeBudgetOptimizer) (x : List ℚ) (t c : ℕ),
      t < x.length → c < s.weight.length →
      ((s.optimize x).curr_spend_matrix.getD t []).getD c 0
        = round5 ((s.optimize x).curr_spend_array.getD t 0
            * s.weight.getD c 0)) := by
  constructor
  · intro s x t c ht hc
    have hkey : (s.optimize x).curr_spend_matrix
        = s.weight.map (fun w =>
            (x.map (fun v => round5 (v * s.spend_scaler))).map
              (fun a => round5 (a * w))) := rfl
    have harr : (s.optimize x).curr_spend_array
        = x.map (fun v => round5 (v * s.spend_scaler)) := rfl
    rw [hkey, harr]
    simp [List.getD_eq_getElem?_getD, List.getElem?_map,
      List.getElem?_eq_getElem, ht, hc]
  · intro s x t c ht hc
    have hkey : (s.optimize x).curr_spend_matrix
        = (x.map (fun v => round5 (v * s.spend_scaler))).map
            (fun a => s.weight.map (fun w => round5 (a * w))) := rfl
    have harr : (s.optimize x).curr_spend_array
        = x.map (fun v => round5 (v * s.spend_scaler)) := rfl
    rw [hkey, harr]
    simp [List.getD_eq_getElem?_getD, List.getElem?_map,
      List.getElem?_eq_getElem, ht, hc]

/-- C1 counterexample: a validly constructed channel-aggregate allocator
with user weight `[2]` takes a solver point that is nonnegative and
satisfies the total-budget constraint, yet reconstructs a matrix whose sum
(2) exceeds `total_budget` (1) beyond any rounding tolerance, so the claim
as stated fails. -/
theorem c1_counterexample_channel_weight_overspend :
    mkChannelBudgetOptimizer [[(1:ℚ)]] 1 1 1 none [1] (some [2])
      = Except.ok (mkChannelBudgetOptimizerRaw [[(1:ℚ)]] 1 1 1 none [1]
          (some [2]))
    ∧ (∀ v ∈ [(1:ℚ)], 0 ≤ v)
    ∧ [(1:ℚ)].sum
      ≤ (mkChannelBudgetOptimizerRaw [[(1:ℚ)]] 1 1 1 none [1]
          (some [2])).total_budget
        / (mkChannelBudgetOptimizerRaw [[(1:ℚ)]] 1 1 1 none [1]
            (some [2])).spend_scaler
    ∧ ¬ (matSum ((mkChannelBudgetOptimizerRaw [[(1:ℚ)]] 1 1 1 none [1]
            (some [2])).optimize [1]).curr_spend_matrix
        ≤ (mkChannelBudgetOptimizerRaw [[(1:ℚ)]] 1 1 1 none [1]
            (some [2])).total_budget
          + ([(1:ℚ)].length : ℚ)
            * (1 + ((mkChannelBudgetOptimizerRaw [[(1:ℚ)]] 1 1 1 none [1]
                (some [2])).weight.length : ℚ)) * (1/200000)) := by
  refine ⟨?_, ?_, ?_, ?_⟩
  · norm_num [mkChannelBudgetOptimizer, mkChannelBudgetOptimizerRaw,
      colSums, ChannelBudgetOptimizer.add_constraints, List.range_succ,
      List.getD]
  · norm_num
  · norm_num [mkChannelBudgetOptimizerRaw, colSums,
      ChannelBudgetOptimizer.add_constraints, List.range_succ, List.getD]
  · norm_num [mkChannelBudgetOptimizerRaw, colSums,
      ChannelBudgetOptimizer.add_constraints, ChannelBudgetOptimizer.optimize,
      matSum, round5, roundHalfEven, List.range_succ, List.getD]

/-- C1 (amended): for every allocator variant, if the solver returns a
nonnegative point satisfying the total-budget constraint and the spend
scaler is positive, and, for the aggregate variants, the decomposition
weight is entrywise nonnegative with sum at most 1, then the reconstructed
spend matrix is nonnegative in every cell and its sum is at most
`total_budget` plus the 5-decimal rounding slack. -/
theorem c1_amended_feasible_solver_point_keeps_budget :
    (∀ (s : BudgetOptimizer) (x : List ℚ), 0 < s.spend_scaler →
      (∀ v ∈ x, 0 ≤ v) → x.sum ≤ s.total_budget / s.spend_scaler →
      (∀ row ∈ (s.optimize x).curr_spend_matrix, ∀ v ∈ row, 0 ≤ v) ∧
        matSum (s.optimize x).curr_spend_matrix
          ≤ s.total_budget + (x.length : ℚ) * (1/200000))
    ∧ (∀ (s : ChannelBudgetOptimizer) (x : List ℚ), 0 < s.spend_scaler →
      (∀ v ∈ x, 0 ≤ v) → x.sum ≤ s.total_budget / s.spend_scaler →
      (∀ w ∈ s.weight, 0 ≤ w) → s.weight.sum ≤ 1 →
      (∀ row ∈ (s.optimize x).curr_spend_matrix, ∀ v ∈ row, 0 ≤ v) ∧
        matSum (s.optimize x).curr_spend_matrix
          ≤ s.total_budget
            + (x.length : ℚ) * (1 + (s.weight.length : ℚ)) * (1/200000))
    ∧ (∀ (s : TimeBudgetOptimizer) (x : List ℚ), 0 < s.spend_scaler →
      (∀ v ∈ x, 0 ≤ v) → x.sum ≤ s.total_budget / s.spend_scaler →
      (∀ w ∈ s.weight, 0 ≤ w) → s.weight.sum ≤ 1 →
      (∀ row ∈ (s.optimize x).curr_spend_matrix, ∀ v ∈ row, 0 ≤ v) ∧
        matSum (s.optimize x).curr_spend_matrix
          ≤ s.total_budget
            + (x.length : ℚ) * (1 + (s.weight.length : ℚ)) * (1/200000)) :=
  ⟨fun s x h1 h2 h3 => full_optimize_feasible s x h1 h2 h3,
   fun s x h1 h2 h3 h4 h5 => channel_optimize_feasible s x h1 h2 h3 h4 h5,
   fun s x h1 h2 h3 h4 h5 => time_optimize_feasible s x h1 h2 h3 h4 h5⟩

/-- Witness instantiating all three parts of the amended C1 theorem on
concrete one-cell allocators. -/
theorem c1_amended_feasible_solver_point_keeps_budget_witness :
    (0 < (mkBudgetOptimizerRaw [[(1:ℚ)]] 1 1 1 none).spend_scaler
      ∧ matSum ((mkBudgetOptimizerRaw [[(1:ℚ)]] 1 1 1
            none).optimize [1]).curr_spend_matrix
        ≤ (mkBudgetOptimizerRaw [[(1:ℚ)]] 1 1 1 none).total_budget
          + ([(1:ℚ)].length : ℚ) * (1/200000))
    ∧ (0 < (mkChannelBudgetOptimizerRaw [[(1:ℚ)]] 1 1 1 none [1]
          (some [1])).spend_scaler
      ∧ matSum ((mkChannelBudgetOptimizerRaw [[(1:ℚ)]] 1 1 1 none [1]
            (some [1])).optimize [1]).curr_spend_matrix
        ≤ (mkChannelBudgetOptimizerRaw [[(1:ℚ)]] 1 1 1 none [1]
            (some [1])).total_budget
          + ([(1:ℚ)].length : ℚ)
            * (1 + ((mkChannelBudgetOptimizerRaw [[(1:ℚ)]] 1 1 1 none [1]
                (some [1])).weight.length : ℚ)) * (1/200000))
    ∧ (0 < (mkTimeBudgetOptimizerRaw [[(1:ℚ)]] 1 1 1 none (some [1])
          (5/100) 5).spend_scaler
      ∧ matSum ((mkTimeBudgetOptimizerRaw [[(1:ℚ)]] 1 1 1 none (some [1])
            (5/100) 5).optimize [1]).curr_spend_matrix
        ≤ (mkTimeBudgetOptimizerRaw [[(1:ℚ)]] 1 1 1 none (some [1])
            (5/100) 5).total_budget
          + ([(1:ℚ)].length : ℚ)
            * (1 + ((mkTimeBudgetOptimizerRaw [[(1:ℚ)]] 1 1 1 none
                (some [1]) (5/100) 5).weight.length : ℚ)) * (1/200000)) := by
  refine ⟨⟨?_, ?_⟩, ⟨?_, ?_⟩, ⟨?_, ?_⟩⟩
  · norm_num [mkBudgetOptimizerRaw, BudgetOptimizer.add_constraints]
  · exact (c1_amended_feasible_solver_point_keeps_budget.1
      (mkBudgetOptimizerRaw [[(1:ℚ)]] 1 1 1 none) [1]
      (by norm_num [mkBudgetOptimizerRaw, BudgetOptimizer.add_constraints])
      (by norm_num)
      (by norm_num [mkBudgetOptimizerRaw, BudgetOptimizer.add_constraints,
        matSum])).2
  · norm_num [mkChannelBudgetOptimizerRaw,
      ChannelBudgetOptimizer.add_constraints]
  · exact (c1_amended_feasible_solver_point_keeps_budget.2.1
      (mkChannelBudgetOptimizerRaw [[(1:ℚ)]] 1 1 1 none [1] (some [1])) [1]
      (by norm_num [mkChannelBudgetOptimizerRaw,
        ChannelBudgetOptimizer.add_constraints])
      (by norm_num)
      (by norm_num [mkChannelBudgetOptimizerRaw, colSums,
        ChannelBudgetOptimizer.add_constraints, List.range_succ, List.getD])
      (by norm_num [mkChannelBudgetOptimizerRaw,
        ChannelBudgetOptimizer.add_constraints])
      (by norm_num [mkChannelBudgetOptimizerRaw,
        ChannelBudgetOptimizer.add_constraints])).2
  · norm_num [mkTimeBudgetOptimizerRaw, TimeBudgetOptimizer.add_constraints]
  · exact (c1_amended_feasible_solver_point_keeps_budget.2.2
      (mkTimeBudgetOptimizerRaw [[(1:ℚ)]] 1 1 1 none (some [1]) (5/100) 5)
      [1]
      (by norm_num [mkTimeBudgetOptimizerRaw,
        TimeBudgetOptimizer.add_constraints])
      (by norm_num)
      (by norm_num [mkTimeBudgetOptimizerRaw, rowSums,
        TimeBudgetOptimizer.add_constraints])
      (by norm_num [mkTimeBudgetOptimizerRaw,
        TimeBudgetOptimizer.add_constraints])
      (by norm_num [mkTimeBudgetOptimizerRaw,
        TimeBudgetOptimizer.add_constraints])).2

/-- Witness instantiating both parts of C2 on concrete one-cell
allocators. -/
theorem c2_reconstruction_cell_formula_witness :
    (0 < (mkChannelBudgetOptimizerRaw [[(1:ℚ)]] 1 1 1 none [1]
        (some [3])).weight.length
      ∧ 0 < [(1:ℚ)].length
      ∧ (((mkChannelBudgetOptimizerRaw [[(1:ℚ)]] 1 1 1 none [1]
            (some [3])).optimize [1]).curr_spend_matrix.getD 0 []).getD 0 0
        = round5 (((mkChannelBudgetOptimizerRaw [[(1:ℚ)]] 1 1 1 none [1]
            (some [3])).optimize [1]).curr_spend_array.getD 0 0
          * (mkChannelBudgetOptimizerRaw [[(1:ℚ)]] 1 1 1 none [1]
              (some [3])).weight.getD 0 0))
    ∧ (0 < [(1:ℚ)].length
      ∧ 0 < (mkTimeBudgetOptimizerRaw [[(1:ℚ)]] 1 1 1 none (some [3])
          (5/100) 5).weight.length
      ∧ (((mkTimeBudgetOptimizerRaw [[(1:ℚ)]] 1 1 1 none (some [3])
            (5/100) 5).optimize [1]).curr_spend_matrix.getD 0 []).getD 0 0
        = round5 (((mkTimeBudgetOptimizerRaw [[(1:ℚ)]] 1 1 1 none (some [3])
            (5/100) 5).optimize [1]).curr_spend_array.getD 0 0
          * (mkTimeBudgetOptimizerRaw [[(1:ℚ)]] 1 1 1 none (some [3])
              (5/100) 5).weight.getD 0 0)) := by
  refine ⟨⟨?_, ?_, ?_⟩, ⟨?_, ?_, ?_⟩⟩
  · norm_num [mkChannelBudgetOptimizerRaw,
      ChannelBudgetOptimizer.add_constraints]
  · norm_num
  · exact c2_reconstruction_cell_formula.1
      (mkChannelBudgetOptimizerRaw [[(1:ℚ)]] 1 1 1 none [1] (some [3])) [1]
      0 0
      (by norm_num [mkChannelBudgetOptimizerRaw,
        ChannelBudgetOptimizer.add_constraints])
      (by norm_num)
  · norm_num
  · norm_num [mkTimeBudgetOptimizerRaw, TimeBudgetOptimizer.add_constraints]
  · exact c2_reconstruction_cell_formula.2
      (mkTimeBudgetOptimizerRaw [[(1:ℚ)]] 1 1 1 none (some [3]) (5/100) 5)
      [1] 0 0
      (by norm_num)
      (by norm_num [mkTimeBudgetOptimizerRaw,
        TimeBudgetOptimizer.add_constraints])

/-- Witness instantiating the channel-aggregate part of C5 on a concrete
2-by-2 window. -/
theorem c5_default_total_budget_is_window_sum_witness :
    (mkChannelBudgetOptimizerRaw [[(1:ℚ), 2], [3, 4]] 2 1 1 none [1, 1]
        none).total_budget = matSum [[(1:ℚ), 2], [3, 4]] :=
  c5_default_total_budget_is_window_sum.2.1 [[(1:ℚ), 2], [3, 4]] 2 1 1
    [1, 1] none (by decide)

/-- Witness instantiating C6 on concrete wrong-length weights. -/
theorem c6_wrong_weight_length_raises_witness :
    ([(5:ℚ)].length ≠ [[(1:ℚ)], [2]].length
      ∧ mkChannelBudgetOptimizer [[(1:ℚ)], [2]] 1 1 1 none [1, 1]
          (some [5]) = Except.error channelWeightLengthMsg)
    ∧ ([(5:ℚ), 6].length ≠ 1
      ∧ mkTimeBudgetOptimizer [[(1:ℚ)]] 1 1 1 none (some [5, 6]) (5/100) 5
          = Except.error timeWeightLengthMsg) :=
  ⟨⟨by decide,
    c6_wrong_weight_length_raises.1 [[(1:ℚ)], [2]] 1 1 1 none [1, 1] [5]
      (by decide)⟩,
   ⟨by decide,
    c6_wrong_weight_length_raises.2 [[(1:ℚ)]] 1 1 1 none [5, 6] (5/100) 5
      (by decide)⟩⟩

/-- Witness instantiating C10 with override `-3`. -/
theorem c10_nonpositive_override_silently_ignored_witness :
    ((-3 : ℚ) ≤ 0)
    ∧ mkBudgetOptimizerRaw [[(1:ℚ)]] 1 1 1 (some (-3))
      = mkBudgetOptimizerRaw [[(1:ℚ)]] 1 1 1 none
    ∧ mkChannelBudgetOptimizer [[(1:ℚ)]] 1 1 1 (some (-3)) [1] (some [1])
      = mkChannelBudgetOptimizer [[(1:ℚ)]] 1 1 1 none [1] (some [1])
    ∧ mkTimeBudgetOptimizer [[(1:ℚ)]] 1 1 1 (some (-3)) (some [1])
        (5/100) 5
      = mkTimeBudgetOptimizer [[(1:ℚ)]] 1 1 1 none (some [1]) (5/100) 5 := by
  refine ⟨by norm_num, ?_, ?_, ?_⟩
  · exact (c10_nonpositive_override_silently_ignored [[(1:ℚ)]] 1 1 1 [1]
      (some [1]) (5/100) 5 (-3) (by norm_num)).1
  · exact (c10_nonpositive_override_silently_ignored [[(1:ℚ)]] 1 1 1 [1]
      (some [1]) (5/100) 5 (-3) (by norm_num)).2.1
  · exact (c10_nonpositive_override_silently_ignored [[(1:ℚ)]] 1 1 1 [1]
      (some [1]) (5/100) 5 (-3) (by norm_num)).2.2
